import Mathlib

/-!
Verification development for the billing/ledger core of the
Generative-AI-Text-Detection-and-Rewrite backend.

The Python source is shallowly embedded as executable Lean functions:
  * `models.py`      → record structures and the `DB` state (lists of rows);
  * `toolkit.py`     → the pure helpers in namespace `InputProcessing`;
  * `forms/*.py`     → row queries and inserts in namespaces `UserForm`,
    `MainForm`, `ReferForm`, `PaymentForm`.  An insert helper in the source
    does `session.add(new_record); session.commit()` and returns a boolean:
    its commit is immediate and per-insert.  We model a fallible commit with
    an explicit `commitOk : Bool` parameter (the environment's verdict for
    that single commit) and return `Option DB`: `some` of the updated state
    on success, `none` on failure (in which case that single insert leaves
    the database unchanged, exactly as a failed `session.commit()` does).
    Where `models.py` declares a unique index, a violating insert fails.
  * `services/*.py`  → state-passing functions `DB → ... → DB × Resp` in
    namespaces `MainService`, `ReferService`, `PaymentService`.  Because
    every form-level insert commits itself, the `session.rollback()` in a
    service-level `except` block cannot undo inserts already committed by
    earlier helper calls; the embedding therefore threads the committed
    state through each insert and, on a failed insert, returns the state
    as already committed so far together with the generic 500 response.

Monetary amounts are embedded as `ℚ` (the schema stores DECIMAL(10,2);
`0.25`, `0.50`, `1.2`, `1.5`, `0.1` are the exact rationals 1/4, 1/2, 6/5,
3/2, 1/10).  Cent amounts from payment providers are `Int`.  Timestamps
are opaque `Nat` parameters.  External collaborators (the text-processing
provider, Stripe/Airwallex) are modelled by passing their returned data in
as parameters, as the services only forward these values.
-/

/-! ## Data model (`models.py`) -/

/-- Row of `humanized_history` (`models.py`, class `HumanizedHistory`). -/
structure HumanizedHistoryRec where
  user_id : String
  time : Nat
  origin_text : String
  after_json : String
  humanized_words : Nat
  humanized_type : String
deriving DecidableEq

/-- Row of `check_history` (`models.py`, class `CheckHistory`). -/
structure CheckHistoryRec where
  user_id : String
  time : Nat
  origin_text : String
  after_json : String
  check_words : Nat
  check_type : String
deriving DecidableEq

/-- Row of `spend_history` (`models.py`, class `SpendHistory`). -/
structure SpendHistoryRec where
  user_id : String
  time : Nat
  spend_credit : ℚ
  spend_type : String
deriving DecidableEq

/-- Row of `recharge_history` (`models.py`, class `RechargeHistory`). -/
structure RechargeHistoryRec where
  user_id : String
  time : Nat
  amount : ℚ
  currency : String
  recharge_credit : ℚ
  recharge_type : String
deriving DecidableEq

/-- Row of `api_history` (`models.py`, class `ApiHistory`). -/
structure ApiHistoryRec where
  user_id : String
  time : Nat
  usage_type : String
  spend_words : ℚ
  balance_api : ℚ
deriving DecidableEq

/-- Row of `payment_intent` (`models.py`, class `PaymentIntent`);
`amount` is in cents.  `client_secret` carries a unique index. -/
structure PaymentIntentRec where
  user_id : String
  amount : Int
  currency : String
  client_secret : String
  time : Nat
deriving DecidableEq

/-- Row of `payment_result` (`models.py`, class `PaymentResult`);
`result_id` carries the unique index `ix_payment_result_id`. -/
structure PaymentResultRec where
  result_id : String
  user_id : String
  amount : Int
  amount_received : Int
  client_secret : String
  currency : String
  status : String
  created : Int
  created_time : Int
  time : Nat
  payment_types : String
deriving DecidableEq

/-- Row of `refer_code` (`models.py`, class `ReferCode`); both
`refer_from_user_id` and `refer_code` carry unique indexes. -/
structure ReferCodeRec where
  refer_from_user_id : String
  refer_user_type : String
  refer_code : String
  created_at : Nat
deriving DecidableEq

/-- Row of `refer_history` (`models.py`, class `ReferHistory`);
`refer_to_user_id` carries the unique index `ix_refer_history_to_user_id`. -/
structure ReferHistoryRec where
  refer_from_user_id : String
  refer_to_user_id : String
  refer_code : String
  refer_time : Nat
  recharge_credit : ℚ
deriving DecidableEq

/-- The persisted database state: one list of rows per table, in insertion
order (`session.add` appends).  The `user` table is projected to the list
of existing `user_id`s, which is all the embedded services consult. -/
structure DB where
  users : List String
  humanized_history : List HumanizedHistoryRec
  check_history : List CheckHistoryRec
  spend_history : List SpendHistoryRec
  recharge_history : List RechargeHistoryRec
  api_history : List ApiHistoryRec
  payment_intent : List PaymentIntentRec
  payment_result : List PaymentResultRec
  refer_code : List ReferCodeRec
  refer_history : List ReferHistoryRec
deriving DecidableEq

/-- Python truthiness of an optional string (`if not x:` is taken both on
`None` and on the empty string). -/
def pyTruthy : Option String → Bool
  | none => false
  | some s => !(s == "")

/-! ## `toolkit.py`, class `InputProcessing` -/

namespace InputProcessing

/-- A character kept by `re.sub(r'[^\w\s]', '', text)`: word characters
(alphanumeric or underscore; ASCII here) and whitespace survive. -/
def keptChar (c : Char) : Bool :=
  c.isAlphanum || c == '_' || c == ' ' || c == '\t' || c == '\n' ||
    c == '\x0d' || c == '\x0b' || c == '\x0c'

/-- Whitespace as recognised by Python's `str.split()` with no separator. -/
def pySpace (c : Char) : Bool :=
  c == ' ' || c == '\t' || c == '\n' || c == '\x0d' || c == '\x0b' || c == '\x0c'

/-- Count the maximal runs of non-whitespace characters, i.e. the length of
`text.split()`.  The boolean accumulator records whether the scan is
currently inside a word. -/
def countRuns : List Char → Bool → Nat
  | [], _ => 0
  | c :: cs, inWord =>
    if pySpace c then countRuns cs false
    else (if inWord then 0 else 1) + countRuns cs true

/-- `InputProcessing.word_count` (`toolkit.py` lines 45-49): strip
punctuation, split on whitespace, return the number of words. -/
def word_count (text : String) : Nat :=
  countRuns (text.toList.filter keptChar) false

/-- `InputProcessing.humanized_spend` (`toolkit.py` lines 52-62): the price
map `{'easy': 1.0, 'medium': 1.2, 'aggressive': 1.5}` is read with
`.get(mode, 1.0)`, so any unknown mode silently falls back to 1.0. -/
def humanized_spend (wordCount : Nat) (mode : String) : ℚ :=
  let humanized_price_rate : ℚ :=
    if mode == "easy" then 1
    else if mode == "medium" then 6/5
    else if mode == "aggressive" then 3/2
    else 1
  (wordCount : ℚ) * humanized_price_rate

/-- `InputProcessing.check_spend` (`toolkit.py` lines 65-68): detection
costs `word_count * 0.1`. -/
def check_spend (wordCount : Nat) : ℚ :=
  (wordCount : ℚ) * (1/10)

/-- `InputProcessing.convert_amount` (`toolkit.py` lines 110-112): cents to
currency units. -/
def convert_amount (credit : Int) : ℚ :=
  (credit : ℚ) / 100

/-- `InputProcessing.get_amount_to_credit_map` (`toolkit.py` lines
163-218): static (cents ↦ credit) tables per currency; unsupported
currencies map to the empty table. -/
def get_amount_to_credit_map (currency : String) : List (Int × ℚ) :=
  if currency.toLower == "cny" then
    [(2900, 500), (4900, 1000), (9900, 2000), (19900, 4500), (49900, 12000), (99900, 25000)]
  else if currency.toLower == "usd" then
    [(400, 500), (700, 1000), (1400, 2000), (2800, 4500), (7000, 12000), (14000, 25000)]
  else if currency.toLower == "cad" then
    [(700, 500), (1240, 1000), (2480, 2000), (4960, 4500), (12400, 12000), (24800, 25000)]
  else []

/-- `InputProcessing.get_credit` (`toolkit.py` lines 220-236): look the
amount up in the per-currency table, defaulting to 0 credit. -/
def get_credit (amount : Int) (currency : String) : ℚ :=
  match (get_amount_to_credit_map currency).find? (fun p => p.1 == amount) with
  | some p => p.2
  | none => 0

/-- Modelled from the spec: `generate_refer_code` is called by
`ReferService.process_get_refer_code` (`services/service_refer.py` line 36)
but its definition is absent from the sources; §4.3 of the spec describes
the generated code as "deterministic from user_id + timestamp", with no
uniqueness check against existing codes.  We model it as an arbitrary but
fixed deterministic function of exactly those two inputs. -/
def generate_refer_code (user_id : String) (timestamp : Nat) : String :=
  "RC-" ++ user_id ++ "-" ++ toString timestamp

end InputProcessing

/-! ## `forms/form_user.py` -/

namespace UserForm

/-- `UserForm.check_user_id_exists` (`forms/form_user.py` lines 89-104):
`count > 0` over the user table filtered by id. -/
def check_user_id_exists (db : DB) (user_id : String) : Bool :=
  db.users.contains user_id

end UserForm

/-! ## `forms/form_main.py`

Every `add_*` helper here constructs the row, `session.add`s it and
immediately `session.commit`s, returning `True`; any exception is caught
and `False` is returned with nothing committed.  No table in this form has
a unique constraint beyond its auto-increment key, so the only failure
source is the environment, modelled by `commitOk`. -/

namespace MainForm

/-- `MainForm.add_humanized_history` (`forms/form_main.py` lines 35-64). -/
def add_humanized_history (db : DB) (r : HumanizedHistoryRec) (commitOk : Bool) : Option DB :=
  if commitOk then some { db with humanized_history := db.humanized_history ++ [r] } else none

/-- `MainForm.add_check_history` (`forms/form_main.py` lines 66-95). -/
def add_check_history (db : DB) (r : CheckHistoryRec) (commitOk : Bool) : Option DB :=
  if commitOk then some { db with check_history := db.check_history ++ [r] } else none

/-- `MainForm.add_spend_history` (`forms/form_main.py` lines 97-122). -/
def add_spend_history (db : DB) (r : SpendHistoryRec) (commitOk : Bool) : Option DB :=
  if commitOk then some { db with spend_history := db.spend_history ++ [r] } else none

/-- `MainForm.add_recharge_history` (`forms/form_main.py` lines 124-153). -/
def add_recharge_history (db : DB) (r : RechargeHistoryRec) (commitOk : Bool) : Option DB :=
  if commitOk then some { db with recharge_history := db.recharge_history ++ [r] } else none

/-- `MainForm.add_api_history` (`forms/form_main.py` lines 155-182). -/
def add_api_history (db : DB) (r : ApiHistoryRec) (commitOk : Bool) : Option DB :=
  if commitOk then some { db with api_history := db.api_history ++ [r] } else none

/-- `MainForm.get_balance` (`forms/form_main.py` lines 184-200): sum of
`spend_credit` and of `recharge_credit` for the user (SQL `SUM` of no rows
is `NULL`, turned into 0 by `or 0`), returning recharge minus spend. -/
def get_balance (db : DB) (user_id : String) : ℚ :=
  let spend_total :=
    ((db.spend_history.filter (fun r => r.user_id == user_id)).map
      (fun r => r.spend_credit)).sum
  let recharge_total :=
    ((db.recharge_history.filter (fun r => r.user_id == user_id)).map
      (fun r => r.recharge_credit)).sum
  recharge_total - spend_total

end MainForm

/-! ## `forms/form_refer.py` -/

namespace ReferForm

/-- `ReferForm.get_refer_code_by_user_id` (`forms/form_refer.py` lines
31-49): first row with this owner, projected to its code. -/
def get_refer_code_by_user_id (db : DB) (user_id : String) : Option String :=
  (db.refer_code.find? (fun r => r.refer_from_user_id == user_id)).map
    (fun r => r.refer_code)

/-- `ReferForm.get_user_id_by_refer_code` (`forms/form_refer.py` lines
51-72): first row with this code, projected to its owner. -/
def get_user_id_by_refer_code (db : DB) (refer_code : String) : Option String :=
  (db.refer_code.find? (fun r => r.refer_code == refer_code)).map
    (fun r => r.refer_from_user_id)

/-- `ReferForm.create_new_refer_code` (`forms/form_refer.py` lines 74-99):
insert-and-commit; `models.py` puts unique indexes on both
`refer_from_user_id` and `refer_code`, so a duplicate of either fails. -/
def create_new_refer_code (db : DB) (r : ReferCodeRec) (commitOk : Bool) : Option DB :=
  if commitOk &&
      !(db.refer_code.any (fun x =>
        x.refer_from_user_id == r.refer_from_user_id || x.refer_code == r.refer_code)) then
    some { db with refer_code := db.refer_code ++ [r] }
  else none

/-- `ReferForm.check_refer_history_exists` (`forms/form_refer.py` lines
101-120): is there any redemption row with this referee? -/
def check_refer_history_exists (db : DB) (user_id : String) : Bool :=
  db.refer_history.any (fun r => r.refer_to_user_id == user_id)

/-- `ReferForm.create_new_refer_history` (`forms/form_refer.py` lines
139-166): insert-and-commit; `models.py` puts the unique index
`ix_refer_history_to_user_id` on `refer_to_user_id`, so a duplicate
referee fails. -/
def create_new_refer_history (db : DB) (r : ReferHistoryRec) (commitOk : Bool) : Option DB :=
  if commitOk &&
      !(db.refer_history.any (fun x => x.refer_to_user_id == r.refer_to_user_id)) then
    some { db with refer_history := db.refer_history ++ [r] }
  else none

end ReferForm

/-! ## `forms/form_payment.py` -/

namespace PaymentForm

/-- `PaymentForm.add_payment_intent` (`forms/form_payment.py` lines 33-59);
`client_secret` has the unique index `ix_client_secret`. -/
def add_payment_intent (db : DB) (r : PaymentIntentRec) (commitOk : Bool) : Option DB :=
  if commitOk &&
      !(db.payment_intent.any (fun x => x.client_secret == r.client_secret)) then
    some { db with payment_intent := db.payment_intent ++ [r] }
  else none

/-- `PaymentForm.add_payment_result` (`forms/form_payment.py` lines
62-104); `result_id` has the unique index `ix_payment_result_id`, the
storage-level idempotency backstop. -/
def add_payment_result (db : DB) (r : PaymentResultRec) (commitOk : Bool) : Option DB :=
  if commitOk &&
      !(db.payment_result.any (fun x => x.result_id == r.result_id)) then
    some { db with payment_result := db.payment_result ++ [r] }
  else none

/-- `PaymentForm.check_client_secret_exists` (`forms/form_payment.py`
lines 106-124). -/
def check_client_secret_exists (db : DB) (client_secret : String) : Bool :=
  db.payment_intent.any (fun r => r.client_secret == client_secret)

/-- `PaymentForm.check_payment_result_id_exists` (`forms/form_payment.py`
lines 127-145). -/
def check_payment_result_id_exists (db : DB) (payment_result_id : String) : Bool :=
  db.payment_result.any (fun r => r.result_id == payment_result_id)

end PaymentForm

/-! ## Service responses

A service returns a JSON body together with an HTTP status code.  The
constructors below carry the data the claims inspect; successful payloads
that merely echo an external response are kept as the response string. -/

inductive Resp where
  /-- 200 with an externally produced payload (humanize/check results,
  plain success messages). -/
  | ok (payload : String)
  /-- 200 from `MainService.get_balance`. -/
  | okBalance (user_id : String) (balance : ℚ)
  /-- 200 from `ReferService.process_get_refer_code`. -/
  | okCode (refer_code : String)
  /-- 200 from `ReferService.process_refer_code_check`
  (`{"message": bool}`). -/
  | okMsg (message : Bool)
  /-- 200 from `PaymentService.process_payment_result`. -/
  | okPayment (user_id : String) (status : String) (amount : ℚ)
      (currency : String) (payment_types : String)
  /-- 400 with the given error message. -/
  | badRequest (msg : String)
  /-- 500, `{"error": "Internal Server Error"}`. -/
  | internalError
deriving DecidableEq

/-! ## `services/service_main.py` -/

namespace MainService

/-- `MainService.process_humanized_text` (`services/service_main.py` lines
27-107).  Validation order as in the source: empty parameters, user
existence, word count ≤ 20, balance, mode validity.  The external
humanizer's reply `api_response` and its reported balances
`balance_api_before`/`balance_api_after` are inputs.  The three ledger
inserts share one session, but each form helper commits itself, so a
failed later insert leaves earlier ones committed and the
`session.rollback()` of the `except` branch undoes nothing; the caller
then gets the generic 500. -/
def process_humanized_text (db : DB) (user_id origin_text mode : String)
    (current_time : Nat) (api_response : String)
    (balance_api_before balance_api_after : ℚ)
    (ok1 ok2 ok3 : Bool) : DB × Resp :=
  let wc := InputProcessing.word_count origin_text
  let spend := InputProcessing.humanized_spend wc mode
  if origin_text == "" || mode == "" || user_id == "" then
    (db, .badRequest "valid input are required")
  else if !(UserForm.check_user_id_exists db user_id) then
    (db, .badRequest "user_id is not exists")
  else if wc ≤ 20 then
    (db, .badRequest "Word count less than 20")
  else if MainForm.get_balance db user_id < spend then
    (db, .badRequest "Insufficient balance")
  else if !(mode == "easy" || mode == "medium" || mode == "aggressive") then
    (db, .badRequest "mode is not correct")
  else
    let delta := balance_api_before - balance_api_after
    let api_token_spend := if delta = 0 then (wc : ℚ) else delta
    match MainForm.add_humanized_history db
        ⟨user_id, current_time, origin_text, api_response, wc, "normal"⟩ ok1 with
    | none => (db, .internalError)
    | some db1 =>
      match MainForm.add_spend_history db1
          ⟨user_id, current_time, spend, "humanized"⟩ ok2 with
      | none => (db1, .internalError)
      | some db2 =>
        match MainForm.add_api_history db2
            ⟨user_id, current_time, "humanized", api_token_spend, balance_api_after⟩ ok3 with
        | none => (db2, .internalError)
        | some db3 => (db3, .ok api_response)

/-- `MainService.process_check_text` (`services/service_main.py` lines
206-276): same shape as the humanize flow with the detection price and the
`check_history` table; there is no mode. -/
def process_check_text (db : DB) (user_id origin_text : String)
    (current_time : Nat) (api_response : String)
    (balance_api_before balance_api_after : ℚ)
    (ok1 ok2 ok3 : Bool) : DB × Resp :=
  let wc := InputProcessing.word_count origin_text
  let spend := InputProcessing.check_spend wc
  if origin_text == "" || user_id == "" then
    (db, .badRequest "valid input are required")
  else if !(UserForm.check_user_id_exists db user_id) then
    (db, .badRequest "user_id is not exists")
  else if wc ≤ 20 then
    (db, .badRequest "Word count less than 20")
  else if MainForm.get_balance db user_id < spend then
    (db, .badRequest "Insufficient balance")
  else
    let delta := balance_api_before - balance_api_after
    let api_token_spend := if delta = 0 then (wc : ℚ) else delta
    match MainForm.add_check_history db
        ⟨user_id, current_time, origin_text, api_response, wc, "normal"⟩ ok1 with
    | none => (db, .internalError)
    | some db1 =>
      match MainForm.add_spend_history db1
          ⟨user_id, current_time, spend, "check"⟩ ok2 with
      | none => (db1, .internalError)
      | some db2 =>
        match MainForm.add_api_history db2
            ⟨user_id, current_time, "check", api_token_spend, balance_api_after⟩ ok3 with
        | none => (db2, .internalError)
        | some db3 => (db3, .ok api_response)

/-- `MainService.get_balance` (`services/service_main.py` lines 404-433). -/
def get_balance (db : DB) (user_id : String) : Resp :=
  if user_id == "" then .badRequest "valid input are required"
  else if !(UserForm.check_user_id_exists db user_id) then
    .badRequest "user_id is not exists"
  else .okBalance user_id (MainForm.get_balance db user_id)

end MainService

/-! ## `services/service_refer.py` -/

namespace ReferService

/-- `ReferService.process_get_refer_code` (`services/service_refer.py`
lines 24-73).  The fresh code is computed up front from the user id and
the current time; if the user already owns a (truthy) code it is returned
with no write, otherwise one `refer_code` row is inserted. -/
def process_get_refer_code (db : DB) (user_id : String) (current_time : Nat)
    (ok1 : Bool) : DB × Resp :=
  let new_refer_code_record := InputProcessing.generate_refer_code user_id current_time
  if user_id == "" then (db, .badRequest "valid input are required")
  else if !(UserForm.check_user_id_exists db user_id) then
    (db, .badRequest "user_id does not exist")
  else if pyTruthy (ReferForm.get_refer_code_by_user_id db user_id) then
    (db, .okCode ((ReferForm.get_refer_code_by_user_id db user_id).getD ""))
  else
    match ReferForm.create_new_refer_code db
        ⟨user_id, "normal", new_refer_code_record, current_time⟩ ok1 with
    | none => (db, .internalError)
    | some db1 => (db1, .okCode new_refer_code_record)

/-- The validation chain of `ReferService.process_use_refer_code`
(`services/service_refer.py` lines 96-125), in source order, returning the
first failing check's error message.  Note Python truthiness: a code
resolving to an empty owner id counts as non-existent. -/
def use_refer_validate (db : DB) (user_id refer_code : String)
    (recharge_credit : ℚ) : Option String :=
  if user_id == "" then some "valid input are required"
  else if !(UserForm.check_user_id_exists db user_id) then
    some "user_id does not exist"
  else if !(pyTruthy (ReferForm.get_user_id_by_refer_code db refer_code)) then
    some "refer_code does not exist"
  else if recharge_credit ≤ 0 then some "recharge should not below zero"
  else if ReferForm.check_refer_history_exists db user_id then
    some "cannot get referred twice"
  else if !(pyTruthy (ReferForm.get_user_id_by_refer_code db refer_code)) then
    some "creat refer code user does not exist"
  else if (ReferForm.get_user_id_by_refer_code db refer_code).getD "" == user_id then
    some "can not refer yourself"
  else none

/-- `ReferService.process_use_refer_code` (`services/service_refer.py`
lines 75-150).  Reward split: the referrer gets `0.25 ×
recharge_credit`, the referee `0.50 × recharge_credit`.  The redemption
row and the two recharge rows are written through helpers that each commit
immediately (on two distinct sessions), so a later failure leaves the
earlier rows committed while the caller gets the generic 500. -/
def process_use_refer_code (db : DB) (user_id refer_code : String)
    (recharge_credit : ℚ) (current_time : Nat)
    (ok1 ok2 ok3 : Bool) : DB × Resp :=
  let from_user_reward_credit := recharge_credit * (1/4)
  let to_user_reward_credit := recharge_credit * (1/2)
  match use_refer_validate db user_id refer_code recharge_credit with
  | some msg => (db, .badRequest msg)
  | none =>
    let from_user_id := (ReferForm.get_user_id_by_refer_code db refer_code).getD ""
    match ReferForm.create_new_refer_history db
        ⟨from_user_id, user_id, refer_code, current_time, recharge_credit⟩ ok1 with
    | none => (db, .internalError)
    | some db1 =>
      match MainForm.add_recharge_history db1
          ⟨user_id, current_time, 0, "usd", to_user_reward_credit, "refer"⟩ ok2 with
      | none => (db1, .internalError)
      | some db2 =>
        match MainForm.add_recharge_history db2
            ⟨from_user_id, current_time, 0, "usd", from_user_reward_credit, "refer"⟩ ok3 with
        | none => (db2, .internalError)
        | some db3 => (db3, .ok "Referral succeed")

/-- `ReferService.process_refer_code_check` (`services/service_refer.py`
lines 199-245): the same checks as the redemption validation chain (minus
the recharge-credit check), every outcome returned as `{"message": bool}`
with status 200 and no database write on any path. -/
def process_refer_code_check (db : DB) (user_id refer_code : String) : DB × Resp :=
  if user_id == "" then (db, .okMsg false)
  else if !(UserForm.check_user_id_exists db user_id) then (db, .okMsg false)
  else if !(pyTruthy (ReferForm.get_user_id_by_refer_code db refer_code)) then
    (db, .okMsg false)
  else if ReferForm.check_refer_history_exists db user_id then (db, .okMsg false)
  else if !(pyTruthy (ReferForm.get_user_id_by_refer_code db refer_code)) then
    (db, .okMsg false)
  else if (ReferForm.get_user_id_by_refer_code db refer_code).getD "" == user_id then
    (db, .okMsg false)
  else (db, .okMsg true)

end ReferService

/-! ## `services/service_payment.py` -/

namespace PaymentService

/-- `PaymentService.process_payment_result` (`services/service_payment.py`
lines 98-206).  The provider's confirmation payload (user id, client
secret, amounts in cents, currency, status, payment method, creation time)
is passed in as parameters.  Success is `status == "succeeded" and amount
== amount_received`; only then is a recharge row written, while the
payment-result audit row is written on both outcomes once the user /
secret / fresh-result-id validations pass.  The recharge helper commits
first, the result-row insert afterwards can still hit the unique
`result_id` index. -/
def process_payment_result (db : DB) (payment_result_id : String)
    (user_id client_secret : String) (amount amount_received : Int)
    (currency status payment_types : String) (created : Int)
    (current_time : Nat) (ok1 ok2 : Bool) : DB × Resp :=
  if payment_result_id == "" then (db, .badRequest "valid input are required")
  else
    let amount_converted := InputProcessing.convert_amount amount_received
    let recharge_credit := InputProcessing.get_credit amount currency
    let currencyU := currency.toUpper
    let payment_status :=
      if status == "succeeded" && amount == amount_received then "succeeded" else "failed"
    if !(UserForm.check_user_id_exists db user_id) then
      (db, .badRequest "user_id is not exists")
    else if !(PaymentForm.check_client_secret_exists db client_secret) then
      (db, .badRequest "client_secret is not exists")
    else if PaymentForm.check_payment_result_id_exists db payment_result_id then
      (db, .badRequest "payment is already exists")
    else
      let step1 : Option DB :=
        if status == "succeeded" && amount == amount_received then
          MainForm.add_recharge_history db
            ⟨user_id, current_time, amount_converted, currencyU, recharge_credit, "payment"⟩ ok1
        else some db
      match step1 with
      | none => (db, .internalError)
      | some db1 =>
        match PaymentForm.add_payment_result db1
            ⟨payment_result_id, user_id, amount, amount_received, client_secret,
              currencyU, status, created, created, current_time, payment_types⟩ ok2 with
        | none => (db1, .internalError)
        | some db2 =>
          (db2, .okPayment user_id payment_status amount_converted currencyU payment_types)

end PaymentService

/-! ## Concrete fixtures used by witnesses and counterexamples -/

/-- A sample input of exactly 25 whitespace-separated words (above the
21-word billing minimum). -/
def sampleText : String :=
  "one two three four five six seven eight nine ten eleven twelve thirteen fourteen fifteen sixteen seventeen eighteen nineteen twenty alpha beta gamma delta epsilon"

/-- A sample input of exactly 2 words (below the billing minimum). -/
def shortText : String := "hello world"

/-- One registered user with an empty ledger. -/
def dbEmpty : DB := ⟨["u1"], [], [], [], [], [], [], [], [], []⟩

/-- One registered user holding a 500-credit gift recharge. -/
def dbRich : DB :=
  ⟨["u1"], [], [], [], [⟨"u1", 0, 0, "USD", 500, "gift"⟩], [], [], [], [], []⟩

/-- Two registered users; user `a` owns referral code `CODE1`; no
redemption has happened yet. -/
def dbRefer : DB :=
  ⟨["a", "b"], [], [], [], [], [], [], [], [⟨"a", "normal", "CODE1", 0⟩], []⟩

/-- One registered user with an open payment intent whose client secret is
`sec1`; no payment result processed yet. -/
def dbPay : DB :=
  ⟨["u1"], [], [], [], [], [], [⟨"u1", 400, "usd", "sec1", 0⟩], [], [], []⟩

/-! ## Claims -/

set_option maxRecDepth 8000

/-- `sampleText` has 25 words. -/
theorem word_count_sampleText : InputProcessing.word_count sampleText = 25 := by
  decide

/-- `shortText` has 2 words. -/
theorem word_count_shortText : InputProcessing.word_count shortText = 2 := by
  decide

/-- **C1** (status: code_bug).  The claim states that a multi-record unit
of work is atomic: if any insert fails, no prior insert of the same unit
remains visible.  The code is not atomic: each form-level `add_*` helper
commits its own insert immediately (`session.add` + `session.commit`
inside `forms/form_main.py`), so when the third insert of the humanize
unit (`add_api_history`) fails, the `session.rollback()` in
`process_humanized_text`'s `except` branch has nothing left to undo and
the already-committed `humanized_history` and `spend_history` rows stay
visible, even though the caller receives the generic internal error.  This
theorem runs the embedded flow on a concrete state with the third commit
failing and exhibits the surviving partial ledger state. -/
theorem humanize_unit_third_insert_partial_commit :
    (MainService.process_humanized_text dbRich "u1" sampleText "easy" 5 "resp" 10 9 true true false).2
      = Resp.internalError
    ∧ (MainService.process_humanized_text dbRich "u1" sampleText "easy" 5 "resp" 10 9 true true false).1.humanized_history
      = [⟨"u1", 5, sampleText, "resp", 25, "normal"⟩]
    ∧ (MainService.process_humanized_text dbRich "u1" sampleText "easy" 5 "resp" 10 9 true true false).1.spend_history
      = [⟨"u1", 5, 25, "humanized"⟩]
    ∧ (MainService.process_humanized_text dbRich "u1" sampleText "easy" 5 "resp" 10 9 true true false).1.api_history
      = [] := by
  refine ⟨?_, ?_, ?_, ?_⟩ <;>
    norm_num [MainService.process_humanized_text, word_count_sampleText, dbRich,
      UserForm.check_user_id_exists, MainForm.get_balance, MainForm.add_humanized_history,
      MainForm.add_spend_history, MainForm.add_api_history, InputProcessing.humanized_spend] <;>
    decide

/-- **C4** (status: code_bug).  The claim states that the three
referral-redemption writes (redemption row, referee credit, referrer
credit) are one atomic unit and partial application is impossible.  In
`process_use_refer_code` the three writes go through helpers that each
commit immediately — on two distinct sessions (`refer_form.Session` and
`main_form.Session`) — so when the third write (the referrer's 25% credit)
fails, the committed redemption row and the referee's 50% credit survive
while the caller receives the generic internal error: exactly the partial
application the claim rules out.  This theorem exhibits that state on a
concrete input (`recharge_credit = 100`). -/
theorem refer_redemption_partial_commit :
    (ReferService.process_use_refer_code dbRefer "b" "CODE1" 100 3 true true false).2
      = Resp.internalError
    ∧ (ReferService.process_use_refer_code dbRefer "b" "CODE1" 100 3 true true false).1.refer_history
      = [⟨"a", "b", "CODE1", 3, 100⟩]
    ∧ (ReferService.process_use_refer_code dbRefer "b" "CODE1" 100 3 true true false).1.recharge_history
      = [⟨"b", 3, 0, "usd", 50, "refer"⟩] := by
  refine ⟨?_, ?_, ?_⟩ <;>
    norm_num [ReferService.process_use_refer_code, ReferService.use_refer_validate, dbRefer,
      UserForm.check_user_id_exists, ReferForm.get_user_id_by_refer_code,
      ReferForm.check_refer_history_exists, ReferForm.create_new_refer_history,
      MainForm.add_recharge_history, pyTruthy, List.find?] <;>
    decide

/-- **C2** (status: confirmed).  `MainForm.get_balance` is exactly the sum
of the user's `recharge_credit`s minus the sum of the user's
`spend_credit`s, and for a registered user with no recharge and no spend
rows the balance endpoint returns the 200 response carrying balance 0
rather than an error. -/
theorem balance_is_recharges_minus_spends (db : DB) (user_id : String) :
    MainForm.get_balance db user_id =
      ((db.recharge_history.filter (fun r => r.user_id == user_id)).map
        (fun r => r.recharge_credit)).sum
      - ((db.spend_history.filter (fun r => r.user_id == user_id)).map
        (fun r => r.spend_credit)).sum
    ∧ (user_id ≠ "" →
        UserForm.check_user_id_exists db user_id = true →
        db.recharge_history.filter (fun r => r.user_id == user_id) = [] →
        db.spend_history.filter (fun r => r.user_id == user_id) = [] →
        MainService.get_balance db user_id = Resp.okBalance user_id 0) := by
  refine ⟨rfl, ?_⟩
  intro hne hex hr hs
  simp [MainService.get_balance, hex, MainForm.get_balance, hr, hs, hne]

/-- Witness for C2: a user with an empty ledger gets balance 0 with a
success status. -/
theorem balance_is_recharges_minus_spends_witness :
    MainService.get_balance dbEmpty "u1" = Resp.okBalance "u1" 0 :=
  (balance_is_recharges_minus_spends dbEmpty "u1").2
    (by decide) (by decide) rfl rfl

/-- **C3** (status: confirmed).  Spend admission keeps balances
non-negative under sequential execution: a humanize (resp. check) request
only reaches its ledger writes when its cost is at most the balance read
immediately before, a request whose cost exceeds the balance is rejected
with the insufficient-balance error and leaves the database untouched, and
after any successful run the user's balance is still ≥ 0. -/
theorem spend_admission_keeps_balance_nonneg
    (db : DB) (uid text mode resp : String) (t : Nat) (bb ba : ℚ)
    (ok1 ok2 ok3 : Bool) :
    (∀ db' p,
        MainService.process_humanized_text db uid text mode t resp bb ba ok1 ok2 ok3
            = (db', .ok p) →
        InputProcessing.humanized_spend (InputProcessing.word_count text) mode
            ≤ MainForm.get_balance db uid
          ∧ 0 ≤ MainForm.get_balance db' uid)
    ∧ (text ≠ "" → mode ≠ "" → uid ≠ "" →
        UserForm.check_user_id_exists db uid = true →
        20 < InputProcessing.word_count text →
        MainForm.get_balance db uid
            < InputProcessing.humanized_spend (InputProcessing.word_count text) mode →
        MainService.process_humanized_text db uid text mode t resp bb ba ok1 ok2 ok3
          = (db, .badRequest "Insufficient balance"))
    ∧ (∀ db' p,
        MainService.process_check_text db uid text t resp bb ba ok1 ok2 ok3
            = (db', .ok p) →
        InputProcessing.check_spend (InputProcessing.word_count text)
            ≤ MainForm.get_balance db uid
          ∧ 0 ≤ MainForm.get_balance db' uid)
    ∧ (text ≠ "" → uid ≠ "" →
        UserForm.check_user_id_exists db uid = true →
        20 < InputProcessing.word_count text →
        MainForm.get_balance db uid
            < InputProcessing.check_spend (InputProcessing.word_count text) →
        MainService.process_check_text db uid text t resp bb ba ok1 ok2 ok3
          = (db, .badRequest "Insufficient balance")) := by
  refine ⟨?_, ?_, ?_, ?_⟩
  · intro db' p h
    simp only [MainService.process_humanized_text, MainForm.add_humanized_history,
      MainForm.add_spend_history, MainForm.add_api_history] at h
    split_ifs at h <;> simp_all
    all_goals obtain ⟨hdb, -⟩ := h
    all_goals subst hdb
    all_goals simp [MainForm.get_balance, List.filter_append] at *
    all_goals linarith
  · intro htext hmode huid hex hwc hbal
    simp [MainService.process_humanized_text, htext, hmode, huid, hex,
      Nat.not_le.mpr hwc, hbal]
  · intro db' p h
    simp only [MainService.process_check_text, MainForm.add_check_history,
      MainForm.add_spend_history, MainForm.add_api_history] at h
    split_ifs at h <;> simp_all
    all_goals obtain ⟨hdb, -⟩ := h
    all_goals subst hdb
    all_goals simp [MainForm.get_balance, List.filter_append] at *
    all_goals linarith
  · intro htext huid hex hwc hbal
    simp [MainService.process_check_text, htext, huid, hex,
      Nat.not_le.mpr hwc, hbal]

/-- After a validated confirmation run whose success condition holds and
whose commits succeed, the state gains the recharge row and the audit row
and the response reports `"succeeded"`. -/
theorem payment_result_state_succ
    (db : DB) (rid uid secret : String) (amount received : Int)
    (currency status ptypes : String) (created : Int) (t : Nat)
    (hrid : rid ≠ "")
    (hu : UserForm.check_user_id_exists db uid = true)
    (hs : PaymentForm.check_client_secret_exists db secret = true)
    (hfresh : PaymentForm.check_payment_result_id_exists db rid = false)
    (hb : (status == "succeeded" && amount == received) = true) :
    (PaymentService.process_payment_result db rid uid secret amount received
        currency status ptypes created t true true).1
      = { db with
          recharge_history := db.recharge_history
            ++ [⟨uid, t, InputProcessing.convert_amount received, currency.toUpper,
                InputProcessing.get_credit amount currency, "payment"⟩],
          payment_result := db.payment_result
            ++ [⟨rid, uid, amount, received, secret, currency.toUpper, status,
                created, created, t, ptypes⟩] }
    ∧ (PaymentService.process_payment_result db rid uid secret amount received
        currency status ptypes created t true true).2
      = Resp.okPayment uid "succeeded" (InputProcessing.convert_amount received)
          currency.toUpper ptypes := by
  have hrid' : (rid == "") = false := by simpa using hrid
  have hfresh' : (db.payment_result.any (fun x => x.result_id == rid)) = false := by
    simpa [PaymentForm.check_payment_result_id_exists] using hfresh
  constructor <;>
    simp [PaymentService.process_payment_result, MainForm.add_recharge_history,
      PaymentForm.add_payment_result, hrid', hu, hs, hfresh, hfresh', hb]

/-- After a validated confirmation run whose success condition fails (and
whose commits succeed), only the audit row is appended and the response
reports `"failed"`. -/
theorem payment_result_state_fail
    (db : DB) (rid uid secret : String) (amount received : Int)
    (currency status ptypes : String) (created : Int) (t : Nat)
    (hrid : rid ≠ "")
    (hu : UserForm.check_user_id_exists db uid = true)
    (hs : PaymentForm.check_client_secret_exists db secret = true)
    (hfresh : PaymentForm.check_payment_result_id_exists db rid = false)
    (hb : (status == "succeeded" && amount == received) = false) :
    (PaymentService.process_payment_result db rid uid secret amount received
        currency status ptypes created t true true).1
      = { db with
          payment_result := db.payment_result
            ++ [⟨rid, uid, amount, received, secret, currency.toUpper, status,
                created, created, t, ptypes⟩] }
    ∧ (PaymentService.process_payment_result db rid uid secret amount received
        currency status ptypes created t true true).2
      = Resp.okPayment uid "failed" (InputProcessing.convert_amount received)
          currency.toUpper ptypes := by
  have hrid' : (rid == "") = false := by simpa using hrid
  have hfresh' : (db.payment_result.any (fun x => x.result_id == rid)) = false := by
    simpa [PaymentForm.check_payment_result_id_exists] using hfresh
  constructor <;>
    simp [PaymentService.process_payment_result, MainForm.add_recharge_history,
      PaymentForm.add_payment_result, hrid', hu, hs, hfresh, hfresh', hb]

/-- A validated, commit-successful confirmation run appends the audit row
and at most one recharge row, whatever the provider's verdict was. -/
theorem payment_result_state_generic
    (db : DB) (rid uid secret : String) (amount received : Int)
    (currency status ptypes : String) (created : Int) (t : Nat)
    (hrid : rid ≠ "")
    (hu : UserForm.check_user_id_exists db uid = true)
    (hs : PaymentForm.check_client_secret_exists db secret = true)
    (hfresh : PaymentForm.check_payment_result_id_exists db rid = false) :
    ∃ L : List RechargeHistoryRec, L.length ≤ 1 ∧
      (PaymentService.process_payment_result db rid uid secret amount received
          currency status ptypes created t true true).1
        = { db with
            recharge_history := db.recharge_history ++ L,
            payment_result := db.payment_result
              ++ [⟨rid, uid, amount, received, secret, currency.toUpper, status,
                  created, created, t, ptypes⟩] } := by
  cases hb : (status == "succeeded" && amount == received)
  · refine ⟨[], by simp, ?_⟩
    rw [(payment_result_state_fail db rid uid secret amount received currency status ptypes
      created t hrid hu hs hfresh hb).1]
    simp
  · exact ⟨_, by simp,
      (payment_result_state_succ db rid uid secret amount received currency status ptypes
        created t hrid hu hs hfresh hb).1⟩

/-- **C5** (status: confirmed).  Once the user-exists, secret-matches and
fresh-result-id validations pass (and the commits themselves succeed), a
payment confirmation writes the recharge row exactly when
`status = "succeeded"` and `amount = amount_received`; on any mismatch no
recharge row is written and the reported status is `"failed"`; the
payment-result audit row is appended in both cases. -/
theorem payment_success_determination
    (db : DB) (rid uid secret : String) (amount received : Int)
    (currency status ptypes : String) (created : Int) (t : Nat)
    (hrid : rid ≠ "")
    (hu : UserForm.check_user_id_exists db uid = true)
    (hs : PaymentForm.check_client_secret_exists db secret = true)
    (hfresh : PaymentForm.check_payment_result_id_exists db rid = false) :
    (PaymentService.process_payment_result db rid uid secret amount received
        currency status ptypes created t true true).1.payment_result
      = db.payment_result
        ++ [⟨rid, uid, amount, received, secret, currency.toUpper, status, created, created, t, ptypes⟩]
    ∧ (status = "succeeded" ∧ amount = received →
        (PaymentService.process_payment_result db rid uid secret amount received
            currency status ptypes created t true true).1.recharge_history
          = db.recharge_history
            ++ [⟨uid, t, InputProcessing.convert_amount received, currency.toUpper,
                InputProcessing.get_credit amount currency, "payment"⟩]
        ∧ (PaymentService.process_payment_result db rid uid secret amount received
            currency status ptypes created t true true).2
          = Resp.okPayment uid "succeeded" (InputProcessing.convert_amount received)
              currency.toUpper ptypes)
    ∧ (¬(status = "succeeded" ∧ amount = received) →
        (PaymentService.process_payment_result db rid uid secret amount received
            currency status ptypes created t true true).1.recharge_history
          = db.recharge_history
        ∧ (PaymentService.process_payment_result db rid uid secret amount received
            currency status ptypes created t true true).2
          = Resp.okPayment uid "failed" (InputProcessing.convert_amount received)
              currency.toUpper ptypes) := by
  by_cases hc : status = "succeeded" ∧ amount = received
  · have hb : (status == "succeeded" && amount == received) = true := by
      simp [hc.1, hc.2]
    obtain ⟨hfst, hsnd⟩ :=
      payment_result_state_succ db rid uid secret amount received currency status ptypes
        created t hrid hu hs hfresh hb
    exact ⟨by rw [hfst], fun _ => ⟨by rw [hfst], hsnd⟩, fun hn => absurd hc hn⟩
  · have hb : (status == "succeeded" && amount == received) = false := by
      rw [Bool.eq_false_iff]
      intro hT
      exact hc (by simpa using hT)
    obtain ⟨hfst, hsnd⟩ :=
      payment_result_state_fail db rid uid secret amount received currency status ptypes
        created t hrid hu hs hfresh hb
    exact ⟨by rw [hfst], fun hcc => absurd hcc hc, fun _ => ⟨by rw [hfst], hsnd⟩⟩

/-- Witness for C5: a matching succeeded confirmation against an open
intent reports success. -/
theorem payment_success_determination_witness :
    (PaymentService.process_payment_result dbPay "r1" "u1" "sec1" 400 400
        "usd" "succeeded" "card" 0 0 true true).2
      = Resp.okPayment "u1" "succeeded" (InputProcessing.convert_amount 400)
          (String.toUpper "usd") "card" :=
  ((payment_success_determination dbPay "r1" "u1" "sec1" 400 400 "usd" "succeeded" "card" 0 0
      (by decide) (by decide) (by decide) (by decide)).2.1 ⟨rfl, rfl⟩).2

/-- **C6** (status: confirmed).  Confirming the same `result_id` twice
yields exactly one `payment_result` row for that id and at most one new
recharge row; the second call is rejected with the duplicate-payment
error before reaching any insert (whatever the commit environment does),
and the unique index on `result_id` makes a direct re-insert fail as the
storage-level backstop. -/
theorem payment_confirmation_idempotent
    (db : DB) (rid uid secret : String) (amount received : Int)
    (currency status ptypes : String) (created : Int) (t t2 : Nat)
    (hrid : rid ≠ "")
    (hu : UserForm.check_user_id_exists db uid = true)
    (hs : PaymentForm.check_client_secret_exists db secret = true)
    (hfresh : PaymentForm.check_payment_result_id_exists db rid = false) :
    ((PaymentService.process_payment_result db rid uid secret amount received
        currency status ptypes created t true true).1.payment_result.filter
          (fun r => r.result_id == rid)).length = 1
    ∧ (PaymentService.process_payment_result db rid uid secret amount received
        currency status ptypes created t true true).1.recharge_history.length
        ≤ db.recharge_history.length + 1
    ∧ (∀ ok1 ok2 : Bool,
        PaymentService.process_payment_result
            (PaymentService.process_payment_result db rid uid secret amount received
              currency status ptypes created t true true).1
            rid uid secret amount received currency status ptypes created t2 ok1 ok2
          = ((PaymentService.process_payment_result db rid uid secret amount received
              currency status ptypes created t true true).1,
              Resp.badRequest "payment is already exists"))
    ∧ (∀ r : PaymentResultRec, r.result_id = rid →
        PaymentForm.add_payment_result
            (PaymentService.process_payment_result db rid uid secret amount received
              currency status ptypes created t true true).1 r true
          = none) := by
  have hrid' : (rid == "") = false := by simpa using hrid
  have hfresh' : (db.payment_result.any (fun r => r.result_id == rid)) = false := by
    simpa [PaymentForm.check_payment_result_id_exists] using hfresh
  have hnil : db.payment_result.filter (fun r => r.result_id == rid) = [] := by
    rw [List.filter_eq_nil_iff]
    intro a ha
    have := List.any_eq_false.mp hfresh' a ha
    simpa using this
  obtain ⟨L, hL, hfst⟩ :=
    payment_result_state_generic db rid uid secret amount received currency status ptypes
      created t hrid hu hs hfresh
  have hu1 : UserForm.check_user_id_exists
      (PaymentService.process_payment_result db rid uid secret amount received
        currency status ptypes created t true true).1 uid = true := by
    rw [hfst]; exact hu
  have hs1 : PaymentForm.check_client_secret_exists
      (PaymentService.process_payment_result db rid uid secret amount received
        currency status ptypes created t true true).1 secret = true := by
    rw [hfst]; exact hs
  have hdup : PaymentForm.check_payment_result_id_exists
      (PaymentService.process_payment_result db rid uid secret amount received
        currency status ptypes created t true true).1 rid = true := by
    rw [hfst]
    simp [PaymentForm.check_payment_result_id_exists, List.any_append]
  refine ⟨?_, ?_, fun ok1 ok2 => ?_, fun r hr => ?_⟩
  · rw [hfst]
    simp [List.filter_append, hnil]
  · rw [hfst]
    simp only [List.length_append]
    omega
  · rw [hfst] at hu1 hs1 hdup ⊢
    simp [PaymentService.process_payment_result, hrid', hu1, hs1, hdup]
  · rw [hfst]
    simp [PaymentForm.add_payment_result, List.any_append, hr]

/-- **C7** (status: confirmed, with `generate_refer_code` modelled from
the spec since its definition is absent from the sources).  For a
registered user who already owns a (non-empty) referral code, the
issuance endpoint returns that code unchanged and inserts nothing; for a
registered user without one, it persists exactly one `refer_code` row
whose code is the deterministic function of the user id and the current
timestamp (provided that fresh code does not collide with an existing
code — the source performs no such pre-check, so a collision would abort
on the unique index). -/
theorem refer_code_issuance_idempotent
    (db : DB) (uid : String) (t : Nat) (ok1 : Bool)
    (hu : uid ≠ "") (hex : UserForm.check_user_id_exists db uid = true) :
    (∀ c, ReferForm.get_refer_code_by_user_id db uid = some c → c ≠ "" →
        ReferService.process_get_refer_code db uid t ok1 = (db, Resp.okCode c))
    ∧ (ReferForm.get_refer_code_by_user_id db uid = none →
        (db.refer_code.any
          (fun x => x.refer_code == InputProcessing.generate_refer_code uid t)) = false →
        ok1 = true →
        ReferService.process_get_refer_code db uid t ok1
          = ({ db with refer_code := db.refer_code
                ++ [⟨uid, "normal", InputProcessing.generate_refer_code uid t, t⟩] },
              Resp.okCode (InputProcessing.generate_refer_code uid t))) := by
  constructor
  · intro c hc hcne
    simp [ReferService.process_get_refer_code, hu, hex, hc, pyTruthy, hcne]
  · intro hnone hfreshcode hok
    subst hok
    have hfind : db.refer_code.find? (fun r => r.refer_from_user_id == uid) = none := by
      cases hf : db.refer_code.find? (fun r => r.refer_from_user_id == uid) with
      | none => rfl
      | some r =>
        rw [ReferForm.get_refer_code_by_user_id, hf] at hnone
        simp at hnone
    have howner : (db.refer_code.any (fun x => x.refer_from_user_id == uid)) = false := by
      rw [List.any_eq_false]
      intro x hx
      simpa using List.find?_eq_none.mp hfind x hx
    have hins : (db.refer_code.any (fun x =>
        x.refer_from_user_id == uid
          || x.refer_code == InputProcessing.generate_refer_code uid t)) = false := by
      rw [List.any_eq_false]
      intro x hx
      have h1 := List.any_eq_false.mp howner x hx
      have h2 := List.any_eq_false.mp hfreshcode x hx
      simp at h1 h2 ⊢
      exact ⟨h1, h2⟩
    simp [ReferService.process_get_refer_code, hu, hex, hnone, pyTruthy,
      ReferForm.create_new_refer_code, hins]

/-- Witness for C7: user `a` already owns `CODE1`, so issuing again
returns it with no insert. -/
theorem refer_code_issuance_idempotent_witness :
    ReferService.process_get_refer_code dbRefer "a" 9 true = (dbRefer, Resp.okCode "CODE1") :=
  (refer_code_issuance_idempotent dbRefer "a" 9 true (by decide) (by decide)).1
    "CODE1" (by decide) (by decide)

/-- Witness for C6: the second confirmation of `r1` is rejected as a
duplicate and changes nothing. -/
theorem payment_confirmation_idempotent_witness :
    PaymentService.process_payment_result
        (PaymentService.process_payment_result dbPay "r1" "u1" "sec1" 400 400
          "usd" "succeeded" "card" 0 0 true true).1
        "r1" "u1" "sec1" 400 400 "usd" "succeeded" "card" 0 1 true true
      = ((PaymentService.process_payment_result dbPay "r1" "u1" "sec1" 400 400
          "usd" "succeeded" "card" 0 0 true true).1,
          Resp.badRequest "payment is already exists") :=
  (payment_confirmation_idempotent dbPay "r1" "u1" "sec1" 400 400 "usd" "succeeded" "card" 0 0 1
      (by decide) (by decide) (by decide) (by decide)).2.2.1 true true

/-- **C8** (status: confirmed).  Pricing is deterministic: humanize cost
is word count times the mode multiplier (easy 1, medium 6/5, aggressive
3/2), check cost is word count times 1/10 — so 100 medium words cost 120
and a 50-word check costs 5 — and any request of at most 20 words is
rejected by both flows with the word-count validation error and no write,
whatever the mode is. -/
theorem pricing_deterministic
    (db : DB) (uid text mode resp : String) (t : Nat) (bb ba : ℚ)
    (ok1 ok2 ok3 : Bool) :
    (∀ wc : Nat,
        InputProcessing.humanized_spend wc "easy" = (wc : ℚ)
        ∧ InputProcessing.humanized_spend wc "medium" = (6/5) * wc
        ∧ InputProcessing.humanized_spend wc "aggressive" = (3/2) * wc
        ∧ InputProcessing.check_spend wc = (1/10) * wc)
    ∧ InputProcessing.humanized_spend 100 "medium" = 120
    ∧ InputProcessing.check_spend 50 = 5
    ∧ (text ≠ "" → mode ≠ "" → uid ≠ "" →
        UserForm.check_user_id_exists db uid = true →
        InputProcessing.word_count text ≤ 20 →
        MainService.process_humanized_text db uid text mode t resp bb ba ok1 ok2 ok3
            = (db, Resp.badRequest "Word count less than 20")
          ∧ MainService.process_check_text db uid text t resp bb ba ok1 ok2 ok3
            = (db, Resp.badRequest "Word count less than 20")) := by
  refine ⟨?_, ?_, ?_, ?_⟩
  · intro wc
    refine ⟨?_, ?_, ?_, ?_⟩ <;>
      simp [InputProcessing.humanized_spend, InputProcessing.check_spend] <;> ring
  · norm_num [InputProcessing.humanized_spend]
    decide
  · norm_num [InputProcessing.check_spend]
  · intro htext hmode huid hex hwc
    constructor
    · simp [MainService.process_humanized_text, htext, hmode, huid, hex, hwc]
    · simp [MainService.process_check_text, htext, huid, hex, hwc]

/-- Witness for C8: a 2-word request is rejected for word count even with
a funded account and a valid mode. -/
theorem pricing_deterministic_witness :
    MainService.process_humanized_text dbRich "u1" shortText "medium" 5 "resp" 10 9 true true true
      = (dbRich, Resp.badRequest "Word count less than 20") :=
  ((pricing_deterministic dbRich "u1" shortText "medium" "resp" 5 10 9 true true true).2.2.2
    (by decide) (by decide) (by decide) (by decide)
    (by rw [word_count_shortText]; decide)).1

/-- **C9** (status: confirmed).  The pre-flight referral check touches no
table, always answers 200 with a boolean message, and answers `true`
exactly when the redemption validation chain of `process_use_refer_code`
would pass for the same user and code with any positive
`recharge_credit`. -/
theorem refer_check_agrees_with_redeem_validation
    (db : DB) (uid code : String) (rc : ℚ) (hrc : 0 < rc) :
    (ReferService.process_refer_code_check db uid code).1 = db
    ∧ (∃ b, (ReferService.process_refer_code_check db uid code).2 = Resp.okMsg b)
    ∧ ((ReferService.process_refer_code_check db uid code).2 = Resp.okMsg true
        ↔ ReferService.use_refer_validate db uid code rc = none) := by
  have hrc' : ¬ rc ≤ 0 := not_le.mpr hrc
  refine ⟨?_, ?_, ?_⟩
  · unfold ReferService.process_refer_code_check
    split_ifs <;> rfl
  · unfold ReferService.process_refer_code_check
    split_ifs <;> exact ⟨_, rfl⟩
  · unfold ReferService.process_refer_code_check ReferService.use_refer_validate
    split_ifs <;> simp_all

/-- Witness for C9: for user `b` and code `CODE1` the pre-flight check
answers `true`, matching a passing redemption validation. -/
theorem refer_check_agrees_witness :
    (ReferService.process_refer_code_check dbRefer "b" "CODE1").2 = Resp.okMsg true :=
  ((refer_check_agrees_with_redeem_validation dbRefer "b" "CODE1" 10 (by norm_num)).2.2).mpr
    (by decide)

/-- **C10** (status: confirmed).  `humanized_spend` is total over
arbitrary mode strings: any mode outside easy/medium/aggressive gets the
default multiplier 1.0, i.e. is priced like `easy`; and since the balance
gate precedes the mode-validity check in the humanize flow, an
under-funded request with an invalid (non-empty) mode is answered with the
insufficient-balance error, while a funded one is answered with the
mode error — in both cases with no write. -/
theorem invalid_mode_defaults_to_easy_rate
    (db : DB) (uid text mode resp : String) (t : Nat) (bb ba : ℚ)
    (ok1 ok2 ok3 : Bool)
    (hm1 : mode ≠ "easy") (hm2 : mode ≠ "medium") (hm3 : mode ≠ "aggressive") :
    (∀ wc : Nat, InputProcessing.humanized_spend wc mode
        = InputProcessing.humanized_spend wc "easy")
    ∧ (text ≠ "" → mode ≠ "" → uid ≠ "" →
        UserForm.check_user_id_exists db uid = true →
        20 < InputProcessing.word_count text →
        (MainForm.get_balance db uid < (InputProcessing.word_count text : ℚ) →
          MainService.process_humanized_text db uid text mode t resp bb ba ok1 ok2 ok3
            = (db, Resp.badRequest "Insufficient balance"))
        ∧ (¬ MainForm.get_balance db uid < (InputProcessing.word_count text : ℚ) →
          MainService.process_humanized_text db uid text mode t resp bb ba ok1 ok2 ok3
            = (db, Resp.badRequest "mode is not correct"))) := by
  have hsp : ∀ wc : Nat, InputProcessing.humanized_spend wc mode = (wc : ℚ) := by
    intro wc
    simp [InputProcessing.humanized_spend, hm1, hm2, hm3]
  constructor
  · intro wc
    rw [hsp wc]
    simp [InputProcessing.humanized_spend]
  · intro htext hmode huid hex hwc
    constructor
    · intro hbal
      rw [← hsp (InputProcessing.word_count text)] at hbal
      simp [MainService.process_humanized_text, htext, hmode, huid, hex,
        Nat.not_le.mpr hwc, hbal]
    · intro hbal
      rw [← hsp (InputProcessing.word_count text)] at hbal
      simp [MainService.process_humanized_text, htext, hmode, huid, hex,
        Nat.not_le.mpr hwc, hbal, hm1, hm2, hm3]

/-- Witness for C10: an unfunded 25-word request with the unknown mode
`hard` is reported as insufficient balance, not as an invalid mode. -/
theorem invalid_mode_defaults_witness :
    MainService.process_humanized_text dbEmpty "u1" sampleText "hard" 5 "resp" 10 9 true true true
      = (dbEmpty, Resp.badRequest "Insufficient balance") :=
  ((invalid_mode_defaults_to_easy_rate dbEmpty "u1" sampleText "hard" "resp" 5 10 9
      true true true (by decide) (by decide) (by decide)).2
    (by decide) (by decide) (by decide) (by decide)
    (by rw [word_count_sampleText]; decide)).1
    (by norm_num [MainForm.get_balance, dbEmpty, word_count_sampleText])

/-- Witness for C3: on an empty ledger a 25-word easy humanize (cost 25)
is rejected for insufficient balance with no write. -/
theorem spend_admission_keeps_balance_nonneg_witness :
    MainService.process_humanized_text dbEmpty "u1" sampleText "easy" 5 "resp" 10 9 true true true
      = (dbEmpty, Resp.badRequest "Insufficient balance") :=
  (spend_admission_keeps_balance_nonneg dbEmpty "u1" sampleText "easy" "resp" 5 10 9
      true true true).2.1
    (by decide) (by decide) (by decide) (by decide)
    (by rw [word_count_sampleText]; decide)
    (by norm_num [MainForm.get_balance, dbEmpty, InputProcessing.humanized_spend,
      word_count_sampleText])
